import Mathlib

set_option maxRecDepth 100000

/-!
Shallow embedding of `cpu.py`, a small LS-8 style CPU simulator.

The machine state (`CPUState`) mirrors the fields of the Python `CPU` class:
a 256-cell ram, 8 registers (register 7 is the stack pointer), a halted flag,
the program counter and the 3-element flags list.  Python list subscripts can
raise `IndexError` (and wrap negative indices), so reads and writes are
`Option`-valued (`pyGetI`, `pySetI`) and every instruction handler returns
`Option` of the next state paired with the handler's Python return value.
Register and ram cells hold unbounded integers, as Python ints do.
-/

namespace CPU

/-- Python list subscript read `l[i]`: a negative index wraps around from the
end of the list; an index out of range raises IndexError, modelled as `none`. -/
def pyGetI (l : List Int) (i : Int) : Option Int :=
  if 0 ≤ i then l[i.toNat]?
  else if 0 ≤ i + l.length then l[(i + l.length).toNat]?
  else none

/-- Python list subscript write `l[i] = v`: same index rules as `pyGetI`. -/
def pySetI (l : List Int) (i : Int) (v : Int) : Option (List Int) :=
  if 0 ≤ i then
    if i.toNat < l.length then some (l.set i.toNat v) else none
  else if 0 ≤ i + l.length then
    some (l.set (i + l.length).toNat v)
  else none

/-- Opcode constant from the source. -/
def HLT : Int := 0b00000001

/-- Opcode constant from the source. -/
def LDI : Int := 0b10000010

/-- Opcode constant from the source. -/
def PRN : Int := 0b01000111

/-- Opcode constant from the source. -/
def MUL : Int := 0b10100010

/-- Opcode constant from the source. -/
def PUSH : Int := 0b01000101

/-- Opcode constant from the source. -/
def POP : Int := 0b01000110

/-- Opcode constant from the source. -/
def CALL : Int := 0b01010000

/-- Opcode constant from the source. -/
def ADD : Int := 0b10100000

/-- Opcode constant from the source. -/
def RET : Int := 0b00010001

/-- Opcode constant from the source. -/
def CMP : Int := 0b10100111

/-- Opcode constant from the source. -/
def JMP : Int := 0b01010100

/-- Opcode constant from the source. -/
def JEQ : Int := 0b01010101

/-- Opcode constant from the source. -/
def JNE : Int := 0b01010110

/-- Index of the register reserved as stack pointer. -/
def SP : Int := 7

/-- Machine state of the `CPU` class: `ram`, `reg`, `halted`, `pc`, `flags`. -/
structure CPUState where
  ram : List Int
  reg : List Int
  halted : Bool
  pc : Int
  flags : List Int
  deriving DecidableEq

/-- Construct a new CPU (`__init__`): 256 zeroed ram cells, 8 zeroed registers
with the stack pointer register 7 preset to 0xF4, not halted, program counter
0, flags cleared. -/
def initCPU : CPUState :=
  { ram := List.replicate 256 0
    reg := (List.replicate 8 0).set 7 0xf4
    halted := false
    pc := 0
    flags := [0, 0, 0] }

/-- Result of one instruction handler call: the state after the call together
with the handler's Python return value (`'Empty Stack'` from `pop` on an empty
stack, `None` otherwise). -/
structure HRet where
  st : CPUState
  ret : Option String
  deriving DecidableEq

/-- Method `ram_read`. -/
def ram_read (s : CPUState) (address : Int) : Option Int :=
  pyGetI s.ram address

/-- Method `ram_write`; Python also returns the written cell, which callers
ignore. -/
def ram_write (s : CPUState) (address value : Int) : Option CPUState := do
  let ram1 ← pySetI s.ram address value
  some { s with ram := ram1 }

/-- Method `alu`: the operation is the Python string argument; an unknown
operation raises, as does an out-of-range register subscript (`none`). -/
def alu (s : CPUState) (op : String) (reg_a reg_b : Int) : Option CPUState :=
  if op = "ADD" then do
    let va ← pyGetI s.reg reg_a
    let vb ← pyGetI s.reg reg_b
    let reg1 ← pySetI s.reg reg_a (va + vb)
    some { s with reg := reg1 }
  else if op = "SUB" then do
    let va ← pyGetI s.reg reg_a
    let vb ← pyGetI s.reg reg_b
    let reg1 ← pySetI s.reg reg_a (va - vb)
    some { s with reg := reg1 }
  else if op = "MUL" then do
    let va ← pyGetI s.reg reg_a
    let vb ← pyGetI s.reg reg_b
    let reg1 ← pySetI s.reg reg_a (va * vb)
    some { s with reg := reg1 }
  else if op = "CMP" then do
    let va ← pyGetI s.reg reg_a
    let vb ← pyGetI s.reg reg_b
    let f1 := if va = vb then [0, 0, 1] else s.flags
    let f2 := if va < vb then [1, 0, 0] else f1
    let f3 := if va > vb then [0, 1, 0] else f2
    some { s with flags := f3 }
  else
    none

/-- Handler `hlt`. -/
def hlt (s : CPUState) (operand_a operand_b : Int) : Option HRet :=
  some ⟨{ s with halted := true }, none⟩

/-- Handler `ldi`. -/
def ldi (s : CPUState) (operand_a operand_b : Int) : Option HRet := do
  let reg1 ← pySetI s.reg operand_a operand_b
  some ⟨{ s with reg := reg1 }, none⟩

/-- Handler `prn`: prints `reg[operand_a]`; the subscript read must succeed,
the printed text itself is outside the machine state. -/
def prn (s : CPUState) (operand_a operand_b : Int) : Option HRet := do
  let _value ← pyGetI s.reg operand_a
  some ⟨s, none⟩

/-- Handler `mul`. -/
def mul (s : CPUState) (operand_a operand_b : Int) : Option HRet := do
  let s1 ← alu s "MUL" operand_a operand_b
  some ⟨s1, none⟩

/-- Handler `push`: decrement the stack pointer register, then store
`reg[operand_a]` (read after the decrement, as in the source) at the ram cell
the stack pointer now names. -/
def push (s : CPUState) (operand_a operand_b : Int) : Option HRet := do
  let sp0 ← pyGetI s.reg SP
  let reg1 ← pySetI s.reg SP (sp0 - 1)
  let value ← pyGetI reg1 operand_a
  let ram1 ← pySetI s.ram (sp0 - 1) value
  some ⟨{ s with reg := reg1, ram := ram1 }, none⟩

/-- Handler `pop`: with the stack pointer at its reset value 0xF4 the handler
returns the `'Empty Stack'` sentinel and leaves the state untouched; otherwise
it loads the cell at the stack pointer into `reg[operand_a]` and increments
the stack pointer (which reads `reg[SP]` again after the register write, as
the source does). -/
def pop (s : CPUState) (operand_a operand_b : Int) : Option HRet := do
  let sp0 ← pyGetI s.reg SP
  if sp0 = 0xf4 then
    some ⟨s, some "Empty Stack"⟩
  else do
    let value ← pyGetI s.ram sp0
    let reg1 ← pySetI s.reg operand_a value
    let sp1 ← pyGetI reg1 SP
    let reg2 ← pySetI reg1 SP (sp1 + 1)
    some ⟨{ s with reg := reg2 }, none⟩

/-- Handler `call`: push `pc + 2`, then set pc to the contents of the register
whose index is the byte after the opcode — re-read from ram after the push
write, exactly as the source does. -/
def call (s : CPUState) (operand_a operand_b : Int) : Option HRet := do
  let return_addr := s.pc + 2
  let sp0 ← pyGetI s.reg SP
  let reg1 ← pySetI s.reg SP (sp0 - 1)
  let ram1 ← pySetI s.ram (sp0 - 1) return_addr
  let reg_num ← pyGetI ram1 (s.pc + 1)
  let subroutine_addr ← pyGetI reg1 reg_num
  some ⟨{ s with reg := reg1, ram := ram1, pc := subroutine_addr }, none⟩

/-- Handler `add`. -/
def add (s : CPUState) (operand_a operand_b : Int) : Option HRet := do
  let s1 ← alu s "ADD" operand_a operand_b
  some ⟨s1, none⟩

/-- Handler `ret`: read the return address at the stack pointer, increment the
stack pointer, set pc to that address (ram is read twice, as in the source). -/
def ret (s : CPUState) (operand_a operand_b : Int) : Option HRet := do
  let value ← pyGetI s.reg SP
  let _return_addr ← pyGetI s.ram value
  let reg1 ← pySetI s.reg SP (value + 1)
  let pc1 ← pyGetI s.ram value
  some ⟨{ s with reg := reg1, pc := pc1 }, none⟩

/-- Handler `cmp`. -/
def cmp (s : CPUState) (operand_a operand_b : Int) : Option HRet := do
  let s1 ← alu s "CMP" operand_a operand_b
  some ⟨s1, none⟩

/-- Handler `jmp`. -/
def jmp (s : CPUState) (operand_a operand_b : Int) : Option HRet := do
  let target ← pyGetI s.reg operand_a
  some ⟨{ s with pc := target }, none⟩

/-- Handler `jeq`: Python truthiness of `flags[2]` is `≠ 0`. -/
def jeq (s : CPUState) (operand_a operand_b : Int) : Option HRet := do
  let f2 ← pyGetI s.flags 2
  if f2 ≠ 0 then do
    let target ← pyGetI s.reg operand_a
    some ⟨{ s with pc := target }, none⟩
  else
    some ⟨{ s with pc := s.pc + 2 }, none⟩

/-- Handler `jne`. -/
def jne (s : CPUState) (operand_a operand_b : Int) : Option HRet := do
  let f2 ← pyGetI s.flags 2
  if f2 = 0 then do
    let target ← pyGetI s.reg operand_a
    some ⟨{ s with pc := target }, none⟩
  else
    some ⟨{ s with pc := s.pc + 2 }, none⟩

/-- Dispatch table built in `__init__`: opcode byte to handler, in the
insertion order of the source. -/
def branchtable (instruction : Int) :
    Option (CPUState → Int → Int → Option HRet) :=
  if instruction = HLT then some hlt
  else if instruction = LDI then some ldi
  else if instruction = PRN then some prn
  else if instruction = CMP then some cmp
  else if instruction = JEQ then some jeq
  else if instruction = ADD then some add
  else if instruction = MUL then some mul
  else if instruction = PUSH then some push
  else if instruction = POP then some pop
  else if instruction = RET then some ret
  else if instruction = CALL then some call
  else if instruction = JMP then some jmp
  else if instruction = JNE then some jne
  else none

/-- Outcome of one iteration of `run`'s loop: a normal next state, a process
exit (exit code, the reported opcode byte and its address, the machine state
left as it was), or an uncaught IndexError from a subscript out of range. -/
inductive StepResult where
  | ok (s : CPUState)
  | exited (code : Nat) (byte : Int) (addr : Int) (s : CPUState)
  | err
  deriving DecidableEq

/-- One iteration of the `run` loop: fetch the opcode byte and the two bytes
after it, derive the instruction size from bits 7 to 6, dispatch (reporting an
unknown opcode and exiting with code 1), then advance pc by the instruction
size unless bit 4 of the opcode is set. -/
def step (s : CPUState) : StepResult :=
  match ram_read s s.pc, ram_read s (s.pc + 1), ram_read s (s.pc + 2) with
  | some instruction, some operand_a, some operand_b =>
    let instruction_size := (Int.land instruction 0b11000000) >>> (6 : Int) + 1
    match branchtable instruction with
    | some handler =>
      match handler s operand_a operand_b with
      | some r =>
        if Int.land (instruction >>> (4 : Int)) 0b1 ≠ 1 then
          StepResult.ok { r.st with pc := r.st.pc + instruction_size }
        else
          StepResult.ok r.st
      | none => StepResult.err
    | none => StepResult.exited 1 instruction s.pc s
  | _, _, _ => StepResult.err

/-- The `run` loop unrolled for `n` iterations: stops early once halted, and
propagates a process exit or an uncaught error. -/
def runFor : Nat → CPUState → StepResult
  | 0, s => StepResult.ok s
  | n + 1, s =>
    if s.halted then StepResult.ok s
    else
      match step s with
      | StepResult.ok s1 => runFor n s1
      | StepResult.exited c byte addr s1 => StepResult.exited c byte addr s1
      | StepResult.err => StepResult.err

/-- Method `load`: place program byte N at ram address N in file order; the
rest of ram stays zeroed. -/
def loadProgram (prog : List Int) : CPUState :=
  { initCPU with ram := prog ++ List.replicate (256 - prog.length) 0 }

/-- Programs the loader can produce without raising: at most 256 lines, each
parsed from an 8-bit binary literal. -/
def validProg (prog : List Int) : Prop :=
  prog.length ≤ 256 ∧ ∀ x ∈ prog, 0 ≤ x ∧ x < 256

instance (prog : List Int) : Decidable (validProg prog) := by
  unfold validProg
  infer_instance

/-- The three fetch reads of one `run` iteration all succeed. -/
def fetchOk (s : CPUState) : Bool :=
  (ram_read s s.pc).isSome && (ram_read s (s.pc + 1)).isSome &&
    (ram_read s (s.pc + 2)).isSome

/-! Helper lemmas about the Python list subscript model. -/

theorem pySetI_length {l l' : List Int} {i v : Int}
    (hset : pySetI l i v = some l') : l'.length = l.length := by
  unfold pySetI at hset
  split_ifs at hset
  · cases hset
    simp
  · cases hset
    simp

theorem pyGetI_pySetI_same {l l' : List Int} {i v : Int}
    (hset : pySetI l i v = some l') : pyGetI l' i = some v := by
  unfold pySetI at hset
  unfold pyGetI
  split_ifs at hset with h1 h2 h3
  · cases hset
    rw [if_pos h1]
    exact List.getElem?_set_eq_of_lt v h2
  · cases hset
    rw [if_neg h1]
    simp only [List.length_set]
    rw [if_pos h3]
    exact List.getElem?_set_eq_of_lt v (by omega)

theorem pyGetI_pySetI_other {l l' : List Int} {i v : Int}
    (hset : pySetI l i v = some l') (hi : 0 ≤ i) (j : Int) (hj : 0 ≤ j)
    (hne : j ≠ i) : pyGetI l' j = pyGetI l j := by
  unfold pySetI at hset
  rw [if_pos hi] at hset
  split_ifs at hset with h2
  cases hset
  unfold pyGetI
  rw [if_pos hj, if_pos hj]
  exact List.getElem?_set_ne (by omega)

theorem pyGetI_isSome {l : List Int} {i : Int} (h0 : 0 ≤ i)
    (h : i < (l.length : Int)) : (pyGetI l i).isSome = true := by
  unfold pyGetI
  rw [if_pos h0, List.getElem?_eq_getElem (by omega)]
  rfl

theorem branchtable_mem {instruction : Int}
    {handler : CPUState → Int → Int → Option HRet}
    (h : branchtable instruction = some handler) :
    instruction ∈
      ([HLT, LDI, PRN, CMP, JEQ, ADD, MUL, PUSH, POP, RET, CALL, JMP, JNE] :
        List Int) := by
  unfold branchtable at h
  by_cases e1 : instruction = HLT
  · rw [e1]; decide
  rw [if_neg e1] at h
  by_cases e2 : instruction = LDI
  · rw [e2]; decide
  rw [if_neg e2] at h
  by_cases e3 : instruction = PRN
  · rw [e3]; decide
  rw [if_neg e3] at h
  by_cases e4 : instruction = CMP
  · rw [e4]; decide
  rw [if_neg e4] at h
  by_cases e5 : instruction = JEQ
  · rw [e5]; decide
  rw [if_neg e5] at h
  by_cases e6 : instruction = ADD
  · rw [e6]; decide
  rw [if_neg e6] at h
  by_cases e7 : instruction = MUL
  · rw [e7]; decide
  rw [if_neg e7] at h
  by_cases e8 : instruction = PUSH
  · rw [e8]; decide
  rw [if_neg e8] at h
  by_cases e9 : instruction = POP
  · rw [e9]; decide
  rw [if_neg e9] at h
  by_cases e10 : instruction = RET
  · rw [e10]; decide
  rw [if_neg e10] at h
  by_cases e11 : instruction = CALL
  · rw [e11]; decide
  rw [if_neg e11] at h
  by_cases e12 : instruction = JMP
  · rw [e12]; decide
  rw [if_neg e12] at h
  by_cases e13 : instruction = JNE
  · rw [e13]; decide
  rw [if_neg e13] at h
  exact Option.noConfusion h

/-! Inversion lemmas: what a successful handler call tells us. -/

theorem hlt_inv {s : CPUState} {a b : Int} {r : HRet} (h : hlt s a b = some r) :
    r = ⟨{ s with halted := true }, none⟩ := by
  cases h
  rfl

theorem ldi_inv {s : CPUState} {a b : Int} {r : HRet} (h : ldi s a b = some r) :
    ∃ reg1, pySetI s.reg a b = some reg1 ∧ r = ⟨{ s with reg := reg1 }, none⟩ := by
  simp only [ldi, Option.bind_eq_bind', Option.bind_eq_some'] at h
  obtain ⟨reg1, h1, h2⟩ := h
  cases h2
  exact ⟨reg1, h1, rfl⟩

theorem prn_inv {s : CPUState} {a b : Int} {r : HRet} (h : prn s a b = some r) :
    r = ⟨s, none⟩ := by
  simp only [prn, Option.bind_eq_bind', Option.bind_eq_some'] at h
  obtain ⟨v, h1, h2⟩ := h
  cases h2
  rfl

theorem alu_ADD_inv {s s1 : CPUState} {ra rb : Int}
    (h : alu s "ADD" ra rb = some s1) :
    ∃ va vb reg1, pyGetI s.reg ra = some va ∧ pyGetI s.reg rb = some vb ∧
      pySetI s.reg ra (va + vb) = some reg1 ∧ s1 = { s with reg := reg1 } := by
  unfold alu at h
  rw [if_pos rfl] at h
  simp only [Option.bind_eq_bind', Option.bind_eq_some'] at h
  obtain ⟨va, hva, vb, hvb, reg1, hreg1, heq⟩ := h
  cases heq
  exact ⟨va, vb, reg1, hva, hvb, hreg1, rfl⟩

theorem alu_MUL_inv {s s1 : CPUState} {ra rb : Int}
    (h : alu s "MUL" ra rb = some s1) :
    ∃ va vb reg1, pyGetI s.reg ra = some va ∧ pyGetI s.reg rb = some vb ∧
      pySetI s.reg ra (va * vb) = some reg1 ∧ s1 = { s with reg := reg1 } := by
  unfold alu at h
  rw [if_neg (by decide), if_neg (by decide), if_pos rfl] at h
  simp only [Option.bind_eq_bind', Option.bind_eq_some'] at h
  obtain ⟨va, hva, vb, hvb, reg1, hreg1, heq⟩ := h
  cases heq
  exact ⟨va, vb, reg1, hva, hvb, hreg1, rfl⟩

theorem alu_CMP_inv {s s1 : CPUState} {ra rb : Int}
    (h : alu s "CMP" ra rb = some s1) :
    ∃ va vb, pyGetI s.reg ra = some va ∧ pyGetI s.reg rb = some vb ∧
      s1 = { s with flags :=
        if va > vb then [0, 1, 0]
        else if va < vb then [1, 0, 0]
        else if va = vb then [0, 0, 1]
        else s.flags } := by
  unfold alu at h
  rw [if_neg (by decide), if_neg (by decide), if_neg (by decide),
    if_pos rfl] at h
  simp only [Option.bind_eq_bind', Option.bind_eq_some'] at h
  obtain ⟨va, hva, vb, hvb, heq⟩ := h
  cases heq
  exact ⟨va, vb, hva, hvb, rfl⟩

theorem add_inv {s : CPUState} {a b : Int} {r : HRet} (h : add s a b = some r) :
    ∃ s1, alu s "ADD" a b = some s1 ∧ r = ⟨s1, none⟩ := by
  simp only [add, Option.bind_eq_bind', Option.bind_eq_some'] at h
  obtain ⟨s1, h1, h2⟩ := h
  cases h2
  exact ⟨s1, h1, rfl⟩

theorem mul_inv {s : CPUState} {a b : Int} {r : HRet} (h : mul s a b = some r) :
    ∃ s1, alu s "MUL" a b = some s1 ∧ r = ⟨s1, none⟩ := by
  simp only [mul, Option.bind_eq_bind', Option.bind_eq_some'] at h
  obtain ⟨s1, h1, h2⟩ := h
  cases h2
  exact ⟨s1, h1, rfl⟩

theorem cmp_inv {s : CPUState} {a b : Int} {r : HRet} (h : cmp s a b = some r) :
    ∃ s1, alu s "CMP" a b = some s1 ∧ r = ⟨s1, none⟩ := by
  simp only [cmp, Option.bind_eq_bind', Option.bind_eq_some'] at h
  obtain ⟨s1, h1, h2⟩ := h
  cases h2
  exact ⟨s1, h1, rfl⟩

theorem push_inv {s : CPUState} {a b : Int} {r : HRet}
    (h : push s a b = some r) :
    ∃ sp0 reg1 value ram1,
      pyGetI s.reg SP = some sp0 ∧
      pySetI s.reg SP (sp0 - 1) = some reg1 ∧
      pyGetI reg1 a = some value ∧
      pySetI s.ram (sp0 - 1) value = some ram1 ∧
      r = ⟨{ s with reg := reg1, ram := ram1 }, none⟩ := by
  simp only [push, Option.bind_eq_bind', Option.bind_eq_some'] at h
  obtain ⟨sp0, h1, reg1, h2, value, h3, ram1, h4, h5⟩ := h
  cases h5
  exact ⟨sp0, reg1, value, ram1, h1, h2, h3, h4, rfl⟩

theorem pop_inv {s : CPUState} {a b : Int} {r : HRet} (h : pop s a b = some r) :
    ∃ sp0, pyGetI s.reg SP = some sp0 ∧
      ((sp0 = 0xf4 ∧ r = ⟨s, some "Empty Stack"⟩) ∨
        (sp0 ≠ 0xf4 ∧ ∃ value reg1 sp1 reg2,
          pyGetI s.ram sp0 = some value ∧
          pySetI s.reg a value = some reg1 ∧
          pyGetI reg1 SP = some sp1 ∧
          pySetI reg1 SP (sp1 + 1) = some reg2 ∧
          r = ⟨{ s with reg := reg2 }, none⟩)) := by
  simp only [pop, Option.bind_eq_bind', Option.bind_eq_some'] at h
  obtain ⟨sp0, hsp, h⟩ := h
  refine ⟨sp0, hsp, ?_⟩
  split at h
  · next heq =>
    cases h
    exact Or.inl ⟨heq, rfl⟩
  · next hne =>
    simp only [Option.bind_eq_bind', Option.bind_eq_some'] at h
    obtain ⟨value, h1, reg1, h2, sp1, h3, reg2, h4, h5⟩ := h
    cases h5
    exact Or.inr ⟨hne, value, reg1, sp1, reg2, h1, h2, h3, h4, rfl⟩

theorem call_inv {s : CPUState} {a b : Int} {r : HRet}
    (h : call s a b = some r) :
    ∃ sp0 reg1 ram1 reg_num subroutine_addr,
      pyGetI s.reg SP = some sp0 ∧
      pySetI s.reg SP (sp0 - 1) = some reg1 ∧
      pySetI s.ram (sp0 - 1) (s.pc + 2) = some ram1 ∧
      pyGetI ram1 (s.pc + 1) = some reg_num ∧
      pyGetI reg1 reg_num = some subroutine_addr ∧
      r = ⟨{ s with reg := reg1, ram := ram1, pc := subroutine_addr },
        none⟩ := by
  simp only [call, Option.bind_eq_bind', Option.bind_eq_some'] at h
  obtain ⟨sp0, h1, reg1, h2, ram1, h3, reg_num, h4, subroutine_addr, h5, h6⟩ := h
  cases h6
  exact ⟨sp0, reg1, ram1, reg_num, subroutine_addr, h1, h2, h3, h4, h5, rfl⟩

theorem ret_inv {s : CPUState} {a b : Int} {r : HRet} (h : ret s a b = some r) :
    ∃ value ra1 reg1 pc1,
      pyGetI s.reg SP = some value ∧
      pyGetI s.ram value = some ra1 ∧
      pySetI s.reg SP (value + 1) = some reg1 ∧
      pyGetI s.ram value = some pc1 ∧
      r = ⟨{ s with reg := reg1, pc := pc1 }, none⟩ := by
  simp only [ret, Option.bind_eq_bind', Option.bind_eq_some'] at h
  obtain ⟨value, h1, ra1, h2, reg1, h3, pc1, h4, h5⟩ := h
  cases h5
  exact ⟨value, ra1, reg1, pc1, h1, h2, h3, h4, rfl⟩

theorem jmp_inv {s : CPUState} {a b : Int} {r : HRet} (h : jmp s a b = some r) :
    ∃ target, pyGetI s.reg a = some target ∧
      r = ⟨{ s with pc := target }, none⟩ := by
  simp only [jmp, Option.bind_eq_bind', Option.bind_eq_some'] at h
  obtain ⟨target, h1, h2⟩ := h
  cases h2
  exact ⟨target, h1, rfl⟩

theorem jeq_inv {s : CPUState} {a b : Int} {r : HRet} (h : jeq s a b = some r) :
    ∃ f2, pyGetI s.flags 2 = some f2 ∧
      ((f2 ≠ 0 ∧ ∃ target, pyGetI s.reg a = some target ∧
          r = ⟨{ s with pc := target }, none⟩) ∨
        (f2 = 0 ∧ r = ⟨{ s with pc := s.pc + 2 }, none⟩)) := by
  simp only [jeq, Option.bind_eq_bind', Option.bind_eq_some'] at h
  obtain ⟨f2, hf, h⟩ := h
  refine ⟨f2, hf, ?_⟩
  split at h
  · next hne =>
    simp only [Option.bind_eq_bind', Option.bind_eq_some'] at h
    obtain ⟨target, h1, h2⟩ := h
    cases h2
    exact Or.inl ⟨hne, target, h1, rfl⟩
  · next heq =>
    cases h
    exact Or.inr ⟨not_not.mp heq, rfl⟩

theorem jne_inv {s : CPUState} {a b : Int} {r : HRet} (h : jne s a b = some r) :
    ∃ f2, pyGetI s.flags 2 = some f2 ∧
      ((f2 = 0 ∧ ∃ target, pyGetI s.reg a = some target ∧
          r = ⟨{ s with pc := target }, none⟩) ∨
        (f2 ≠ 0 ∧ r = ⟨{ s with pc := s.pc + 2 }, none⟩)) := by
  simp only [jne, Option.bind_eq_bind', Option.bind_eq_some'] at h
  obtain ⟨f2, hf, h⟩ := h
  refine ⟨f2, hf, ?_⟩
  split at h
  · next heq =>
    simp only [Option.bind_eq_bind', Option.bind_eq_some'] at h
    obtain ⟨target, h1, h2⟩ := h
    cases h2
    exact Or.inl ⟨heq, target, h1, rfl⟩
  · next hne =>
    cases h
    exact Or.inr ⟨hne, rfl⟩

theorem branchtable_cases {instruction : Int}
    {handler : CPUState → Int → Int → Option HRet}
    (h : branchtable instruction = some handler) :
    (instruction = HLT ∧ handler = hlt) ∨
    (instruction = LDI ∧ handler = ldi) ∨
    (instruction = PRN ∧ handler = prn) ∨
    (instruction = CMP ∧ handler = cmp) ∨
    (instruction = JEQ ∧ handler = jeq) ∨
    (instruction = ADD ∧ handler = add) ∨
    (instruction = MUL ∧ handler = mul) ∨
    (instruction = PUSH ∧ handler = push) ∨
    (instruction = POP ∧ handler = pop) ∨
    (instruction = RET ∧ handler = ret) ∨
    (instruction = CALL ∧ handler = call) ∨
    (instruction = JMP ∧ handler = jmp) ∨
    (instruction = JNE ∧ handler = jne) := by
  unfold branchtable at h
  by_cases e1 : instruction = HLT
  · rw [if_pos e1] at h
    exact Or.inl ⟨e1, (Option.some.inj h).symm⟩
  rw [if_neg e1] at h
  by_cases e2 : instruction = LDI
  · rw [if_pos e2] at h
    exact Or.inr (Or.inl ⟨e2, (Option.some.inj h).symm⟩)
  rw [if_neg e2] at h
  by_cases e3 : instruction = PRN
  · rw [if_pos e3] at h
    exact Or.inr (Or.inr (Or.inl ⟨e3, (Option.some.inj h).symm⟩))
  rw [if_neg e3] at h
  by_cases e4 : instruction = CMP
  · rw [if_pos e4] at h
    exact Or.inr (Or.inr (Or.inr (Or.inl ⟨e4, (Option.some.inj h).symm⟩)))
  rw [if_neg e4] at h
  by_cases e5 : instruction = JEQ
  · rw [if_pos e5] at h
    exact Or.inr (Or.inr (Or.inr (Or.inr (Or.inl
      ⟨e5, (Option.some.inj h).symm⟩))))
  rw [if_neg e5] at h
  by_cases e6 : instruction = ADD
  · rw [if_pos e6] at h
    exact Or.inr (Or.inr (Or.inr (Or.inr (Or.inr (Or.inl
      ⟨e6, (Option.some.inj h).symm⟩)))))
  rw [if_neg e6] at h
  by_cases e7 : instruction = MUL
  · rw [if_pos e7] at h
    exact Or.inr (Or.inr (Or.inr (Or.inr (Or.inr (Or.inr (Or.inl
      ⟨e7, (Option.some.inj h).symm⟩))))))
  rw [if_neg e7] at h
  by_cases e8 : instruction = PUSH
  · rw [if_pos e8] at h
    exact Or.inr (Or.inr (Or.inr (Or.inr (Or.inr (Or.inr (Or.inr (Or.inl
      ⟨e8, (Option.some.inj h).symm⟩)))))))
  rw [if_neg e8] at h
  by_cases e9 : instruction = POP
  · rw [if_pos e9] at h
    exact Or.inr (Or.inr (Or.inr (Or.inr (Or.inr (Or.inr (Or.inr (Or.inr
      (Or.inl ⟨e9, (Option.some.inj h).symm⟩))))))))
  rw [if_neg e9] at h
  by_cases e10 : instruction = RET
  · rw [if_pos e10] at h
    exact Or.inr (Or.inr (Or.inr (Or.inr (Or.inr (Or.inr (Or.inr (Or.inr
      (Or.inr (Or.inl ⟨e10, (Option.some.inj h).symm⟩)))))))))
  rw [if_neg e10] at h
  by_cases e11 : instruction = CALL
  · rw [if_pos e11] at h
    exact Or.inr (Or.inr (Or.inr (Or.inr (Or.inr (Or.inr (Or.inr (Or.inr
      (Or.inr (Or.inr (Or.inl ⟨e11, (Option.some.inj h).symm⟩))))))))))
  rw [if_neg e11] at h
  by_cases e12 : instruction = JMP
  · rw [if_pos e12] at h
    exact Or.inr (Or.inr (Or.inr (Or.inr (Or.inr (Or.inr (Or.inr (Or.inr
      (Or.inr (Or.inr (Or.inr (Or.inl ⟨e12, (Option.some.inj h).symm⟩)))))))))))
  rw [if_neg e12] at h
  by_cases e13 : instruction = JNE
  · rw [if_pos e13] at h
    exact Or.inr (Or.inr (Or.inr (Or.inr (Or.inr (Or.inr (Or.inr (Or.inr
      (Or.inr (Or.inr (Or.inr (Or.inr ⟨e13, (Option.some.inj h).symm⟩)))))))))))
  rw [if_neg e13] at h
  exact Option.noConfusion h

theorem handler_frame {instruction : Int}
    {hd : CPUState → Int → Int → Option HRet} {s : CPUState} {a b : Int}
    {r : HRet} (hbt : branchtable instruction = some hd)
    (hh : hd s a b = some r) :
    r.st.ram.length = s.ram.length ∧
      (instruction ≠ CMP → r.st.flags = s.flags) := by
  rcases branchtable_cases hbt with ⟨hi, he⟩ | ⟨hi, he⟩ | ⟨hi, he⟩ | ⟨hi, he⟩ |
    ⟨hi, he⟩ | ⟨hi, he⟩ | ⟨hi, he⟩ | ⟨hi, he⟩ | ⟨hi, he⟩ | ⟨hi, he⟩ |
    ⟨hi, he⟩ | ⟨hi, he⟩ | ⟨hi, he⟩ <;> subst he
  · rw [hlt_inv hh]
    exact ⟨rfl, fun _ => rfl⟩
  · obtain ⟨reg1, _, he2⟩ := ldi_inv hh
    rw [he2]
    exact ⟨rfl, fun _ => rfl⟩
  · rw [prn_inv hh]
    exact ⟨rfl, fun _ => rfl⟩
  · obtain ⟨s1, h1, he2⟩ := cmp_inv hh
    obtain ⟨va, vb, _, _, hs1⟩ := alu_CMP_inv h1
    rw [he2, hs1]
    exact ⟨rfl, fun hne => absurd hi hne⟩
  · obtain ⟨f2, _, hcase⟩ := jeq_inv hh
    rcases hcase with ⟨_, target, _, he2⟩ | ⟨_, he2⟩ <;> rw [he2] <;>
      exact ⟨rfl, fun _ => rfl⟩
  · obtain ⟨s1, h1, he2⟩ := add_inv hh
    obtain ⟨va, vb, reg1, _, _, _, hs1⟩ := alu_ADD_inv h1
    rw [he2, hs1]
    exact ⟨rfl, fun _ => rfl⟩
  · obtain ⟨s1, h1, he2⟩ := mul_inv hh
    obtain ⟨va, vb, reg1, _, _, _, hs1⟩ := alu_MUL_inv h1
    rw [he2, hs1]
    exact ⟨rfl, fun _ => rfl⟩
  · obtain ⟨sp0, reg1, value, ram1, _, _, _, h4, he2⟩ := push_inv hh
    rw [he2]
    exact ⟨pySetI_length h4, fun _ => rfl⟩
  · obtain ⟨sp0, _, hcase⟩ := pop_inv hh
    rcases hcase with ⟨_, he2⟩ |
      ⟨_, value, reg1, sp1, reg2, _, _, _, _, he2⟩ <;> rw [he2] <;>
      exact ⟨rfl, fun _ => rfl⟩
  · obtain ⟨value, ra1, reg1, pc1, _, _, _, _, he2⟩ := ret_inv hh
    rw [he2]
    exact ⟨rfl, fun _ => rfl⟩
  · obtain ⟨sp0, reg1, ram1, reg_num, sa, _, _, h3, _, _, he2⟩ := call_inv hh
    rw [he2]
    exact ⟨pySetI_length h3, fun _ => rfl⟩
  · obtain ⟨target, _, he2⟩ := jmp_inv hh
    rw [he2]
    exact ⟨rfl, fun _ => rfl⟩
  · obtain ⟨f2, _, hcase⟩ := jne_inv hh
    rcases hcase with ⟨_, target, _, he2⟩ | ⟨_, he2⟩ <;> rw [he2] <;>
      exact ⟨rfl, fun _ => rfl⟩

theorem step_ok_ram_length {s s' : CPUState}
    (h : step s = StepResult.ok s') : s'.ram.length = s.ram.length := by
  unfold step at h
  split at h
  · rename_i instruction operand_a operand_b h1 h2 h3
    simp only [] at h
    cases hbt : branchtable instruction with
    | none =>
      simp only [hbt] at h
      exact StepResult.noConfusion h
    | some hd =>
      simp only [hbt] at h
      cases hh : hd s operand_a operand_b with
      | none =>
        simp only [hh] at h
        exact StepResult.noConfusion h
      | some r =>
        simp only [hh] at h
        have hlen := (handler_frame hbt hh).1
        split at h
        · cases h
          exact hlen
        · cases h
          exact hlen
  · exact StepResult.noConfusion h

theorem runFor_ram_length :
    ∀ (n : Nat) (s0 s : CPUState),
      runFor n s0 = StepResult.ok s → s.ram.length = s0.ram.length := by
  intro n
  induction n with
  | zero =>
    intro s0 s h
    cases h
    rfl
  | succ n ih =>
    intro s0 s h
    unfold runFor at h
    split_ifs at h with hh
    · cases h
      rfl
    · split at h
      · next s1 hstep =>
        exact (ih s1 s h).trans (step_ok_ram_length hstep)
      · exact StepResult.noConfusion h
      · exact StepResult.noConfusion h

theorem step_eq_of_fetch {s : CPUState} {instruction operand_a operand_b : Int}
    {hd : CPUState → Int → Int → Option HRet} {r : HRet}
    (h1 : ram_read s s.pc = some instruction)
    (h2 : ram_read s (s.pc + 1) = some operand_a)
    (h3 : ram_read s (s.pc + 2) = some operand_b)
    (hbt : branchtable instruction = some hd)
    (hh : hd s operand_a operand_b = some r) :
    step s =
      if Int.land (instruction >>> (4 : Int)) 1 ≠ 1 then
        StepResult.ok { r.st with pc := r.st.pc +
          ((Int.land instruction 192) >>> (6 : Int) + 1) }
      else StepResult.ok r.st := by
  simp only [step, h1, h2, h3, hbt, hh]

/-- C1: in a cycle of the run loop whose fetch and dispatch succeed, the
instruction size is ((opcode >> 6) & 0b11) + 1; if bit 4 of the opcode is 0
the program counter ends at the handler's value advanced by exactly that
size, and if bit 4 is 1 it ends exactly where the handler set it. -/
theorem C1_cycle_size_and_pc_advance (s : CPUState)
    (instruction operand_a operand_b : Int)
    (handler : CPUState → Int → Int → Option HRet) (r : HRet)
    (h1 : ram_read s s.pc = some instruction)
    (h2 : ram_read s (s.pc + 1) = some operand_a)
    (h3 : ram_read s (s.pc + 2) = some operand_b)
    (hbt : branchtable instruction = some handler)
    (hh : handler s operand_a operand_b = some r) :
    (Int.land (instruction >>> (4 : Int)) 1 = 0 →
      step s = StepResult.ok { r.st with pc := r.st.pc +
        (Int.land (instruction >>> (6 : Int)) 0b11 + 1) }) ∧
    (Int.land (instruction >>> (4 : Int)) 1 = 1 →
      step s = StepResult.ok r.st) := by
  have hstep := step_eq_of_fetch h1 h2 h3 hbt hh
  have hmem := branchtable_mem hbt
  constructor
  · intro hbit
    have harith : (Int.land instruction 192) >>> (6 : Int) + 1 =
        Int.land (instruction >>> (6 : Int)) 0b11 + 1 := by
      fin_cases hmem <;> decide
    rw [hstep, if_pos (show Int.land (instruction >>> (4 : Int)) 1 ≠ 1 by
      rw [hbit]; decide), harith]
  · intro hbit
    rw [hstep, if_neg (fun hc => hc hbit)]

/-- C2: the Compare ALU operation sets the flags to exactly one of
[1,0,0] (register a less than register b), [0,1,0] (greater) or
[0,0,1] (equal). -/
theorem C2_cmp_flags_exactly_one (s s1 : CPUState) (reg_a reg_b va vb : Int)
    (ha : pyGetI s.reg reg_a = some va)
    (hb : pyGetI s.reg reg_b = some vb)
    (h : alu s "CMP" reg_a reg_b = some s1) :
    (va < vb ∧ s1.flags = [1, 0, 0]) ∨
    (va > vb ∧ s1.flags = [0, 1, 0]) ∨
    (va = vb ∧ s1.flags = [0, 0, 1]) := by
  obtain ⟨va2, vb2, ha2, hb2, hs1⟩ := alu_CMP_inv h
  rw [ha] at ha2
  rw [hb] at hb2
  cases ha2
  cases hb2
  rcases lt_trichotomy va vb with hlt | heq | hgt
  · rw [hs1, if_neg (by omega), if_pos hlt]
    exact Or.inl ⟨hlt, rfl⟩
  · rw [hs1, if_neg (by omega), if_neg (by omega), if_pos heq]
    exact Or.inr (Or.inr ⟨heq, rfl⟩)
  · rw [hs1, if_pos hgt]
    exact Or.inr (Or.inl ⟨hgt, rfl⟩)

/-- C5: a POP with the stack pointer at its reset value 0xF4 returns the
'Empty Stack' sentinel with the state untouched, and the surrounding run
cycle then only advances the program counter by POP's instruction size 2. -/
theorem C5_pop_empty_stack (s : CPUState) (operand_a operand_b : Int)
    (h1 : ram_read s s.pc = some POP)
    (h2 : ram_read s (s.pc + 1) = some operand_a)
    (h3 : ram_read s (s.pc + 2) = some operand_b)
    (hsp : pyGetI s.reg SP = some 0xf4) :
    pop s operand_a operand_b = some ⟨s, some "Empty Stack"⟩ ∧
      step s = StepResult.ok { s with pc := s.pc + 2 } := by
  have hpop : pop s operand_a operand_b = some ⟨s, some "Empty Stack"⟩ := by
    unfold pop
    rw [hsp]
    simp
  refine ⟨hpop, ?_⟩
  rw [step_eq_of_fetch h1 h2 h3 rfl hpop, if_pos (by decide)]
  have hsize : (Int.land POP 192) >>> (6 : Int) + 1 = 2 := by decide
  rw [hsize]

/-- C7: an opcode byte missing from the dispatch table makes the run loop
report that byte and its address and exit with code 1, leaving the whole
machine state untouched. -/
theorem C7_unknown_opcode (s : CPUState)
    (instruction operand_a operand_b : Int)
    (h1 : ram_read s s.pc = some instruction)
    (h2 : ram_read s (s.pc + 1) = some operand_a)
    (h3 : ram_read s (s.pc + 2) = some operand_b)
    (hbt : branchtable instruction = none) :
    step s = StepResult.exited 1 instruction s.pc s := by
  simp only [step, h1, h2, h3, hbt]

/-- C8: the ADD and MUL ALU operations store the exact unbounded integer sum
and product in register a, with no wrapping, and swapping the operand order
stores the same numeric result. -/
theorem C8_alu_add_mul_exact_commutative (s sab sba mab mba : CPUState)
    (a b va vb : Int)
    (ha : pyGetI s.reg a = some va) (hb : pyGetI s.reg b = some vb)
    (h1 : alu s "ADD" a b = some sab) (h2 : alu s "ADD" b a = some sba)
    (h3 : alu s "MUL" a b = some mab) (h4 : alu s "MUL" b a = some mba) :
    pyGetI sab.reg a = some (va + vb) ∧
    pyGetI mab.reg a = some (va * vb) ∧
    pyGetI sab.reg a = pyGetI sba.reg b ∧
    pyGetI mab.reg a = pyGetI mba.reg b := by
  obtain ⟨va1, vb1, reg1, ha1, hb1, hset1, he1⟩ := alu_ADD_inv h1
  rw [ha] at ha1
  rw [hb] at hb1
  cases ha1
  cases hb1
  obtain ⟨vb2, va2, reg2, hb2, ha2, hset2, he2⟩ := alu_ADD_inv h2
  rw [hb] at hb2
  rw [ha] at ha2
  cases hb2
  cases ha2
  obtain ⟨va3, vb3, reg3, ha3, hb3, hset3, he3⟩ := alu_MUL_inv h3
  rw [ha] at ha3
  rw [hb] at hb3
  cases ha3
  cases hb3
  obtain ⟨vb4, va4, reg4, hb4, ha4, hset4, he4⟩ := alu_MUL_inv h4
  rw [hb] at hb4
  rw [ha] at ha4
  cases hb4
  cases ha4
  have g1 : pyGetI sab.reg a = some (va + vb) := by
    rw [he1]
    exact pyGetI_pySetI_same hset1
  have g2 : pyGetI sba.reg b = some (vb + va) := by
    rw [he2]
    exact pyGetI_pySetI_same hset2
  have g3 : pyGetI mab.reg a = some (va * vb) := by
    rw [he3]
    exact pyGetI_pySetI_same hset3
  have g4 : pyGetI mba.reg b = some (vb * va) := by
    rw [he4]
    exact pyGetI_pySetI_same hset4
  refine ⟨g1, g3, ?_, ?_⟩
  · rw [g1, g2, Int.add_comm]
  · rw [g3, g4, Int.mul_comm]

/-- C9: every handler reachable from the dispatch table other than CMP
leaves the flags unchanged. -/
theorem C9_flags_only_cmp (s : CPUState)
    (instruction operand_a operand_b : Int)
    (handler : CPUState → Int → Int → Option HRet) (r : HRet)
    (hbt : branchtable instruction = some handler)
    (hne : instruction ≠ CMP)
    (hh : handler s operand_a operand_b = some r) :
    r.st.flags = s.flags :=
  (handler_frame hbt hh).2 hne

/-- C10: a successful PUSH with stack pointer S changes exactly register 7,
which becomes S - 1, and the ram cell S - 1, which becomes the value of the
pushed register; all other registers and ram cells, the flags, the halted
flag and the program counter are unchanged. -/
theorem C10_push_frame (s : CPUState) (r b S v : Int) (res : HRet)
    (hr0 : 0 ≤ r)
    (hsp : pyGetI s.reg SP = some S)
    (hS1 : 1 ≤ S)
    (hv : pyGetI s.reg r = some v)
    (hpush : push s r b = some res) :
    pyGetI res.st.reg SP = some (S - 1) ∧
    (∀ i : Int, 0 ≤ i → i ≠ SP → pyGetI res.st.reg i = pyGetI s.reg i) ∧
    pyGetI res.st.ram (S - 1) = pyGetI res.st.reg r ∧
    (r ≠ SP → pyGetI res.st.ram (S - 1) = some v) ∧
    (∀ j : Int, 0 ≤ j → j ≠ S - 1 → pyGetI res.st.ram j = pyGetI s.ram j) ∧
    res.st.flags = s.flags ∧ res.st.halted = s.halted ∧
    res.st.pc = s.pc := by
  obtain ⟨sp0, reg1, value, ram1, h1, h2, h3, h4, he⟩ := push_inv hpush
  rw [hsp] at h1
  cases h1
  subst he
  refine ⟨pyGetI_pySetI_same h2, ?_, ?_, ?_, ?_, rfl, rfl, rfl⟩
  · intro i hi hine
    exact pyGetI_pySetI_other h2 (by decide) i hi hine
  · rw [h3, pyGetI_pySetI_same h4]
  · intro hrne
    rw [pyGetI_pySetI_same h4]
    rw [pyGetI_pySetI_other h2 (by decide) r hr0 hrne, hv] at h3
    exact h3.symm
  · intro j hj hjne
    exact pyGetI_pySetI_other h4 (by omega) j hj hjne

/-- C3 (amended): a successful CALL at address pc with stack pointer S
stores pc + 2 at ram cell S - 1 (the decremented stack pointer) and jumps to
the contents of the register named by the byte at pc + 1, provided that
register is not the stack pointer register 7 and the pushed stack slot
S - 1 is not the operand address pc + 1 (the handler re-reads the operand
byte from ram after the push write, so an aliasing push clobbers it); a RET
executed next reads that cell, sets the program counter back to pc + 2 and
restores the stack pointer to S. -/
theorem C3_call_ret_return_address_amended (s : CPUState)
    (a b a2 b2 S rn target : Int) (r1 r2 : HRet)
    (hsp : pyGetI s.reg SP = some S)
    (hS1 : 1 ≤ S)
    (hpc : 0 ≤ s.pc)
    (hop : pyGetI s.ram (s.pc + 1) = some rn)
    (hrn0 : 0 ≤ rn) (hrn7 : rn < 7)
    (htgt : pyGetI s.reg rn = some target)
    (hne : S - 1 ≠ s.pc + 1)
    (hcall : call s a b = some r1)
    (hret : ret r1.st a2 b2 = some r2) :
    pyGetI r1.st.reg SP = some (S - 1) ∧
    pyGetI r1.st.ram (S - 1) = some (s.pc + 2) ∧
    r1.st.pc = target ∧
    r2.st.pc = s.pc + 2 ∧
    pyGetI r2.st.reg SP = some S := by
  obtain ⟨sp0, reg1, ram1, reg_num, subroutine_addr, h1, h2, h3, h4, h5, he⟩ :=
    call_inv hcall
  rw [hsp] at h1
  cases h1
  rw [pyGetI_pySetI_other h3 (by omega) (s.pc + 1) (by omega) (Ne.symm hne),
    hop] at h4
  cases h4
  rw [pyGetI_pySetI_other h2 (by decide) rn hrn0
    (show rn ≠ SP by unfold SP; omega), htgt] at h5
  cases h5
  subst he
  have k1 : pyGetI reg1 SP = some (S - 1) := pyGetI_pySetI_same h2
  have k2 : pyGetI ram1 (S - 1) = some (s.pc + 2) := pyGetI_pySetI_same h3
  obtain ⟨value, ra1, reg2, pc1, j1, j2, j3, j4, he2⟩ := ret_inv hret
  have j1' : pyGetI reg1 SP = some value := j1
  rw [k1] at j1'
  cases j1'
  have j4' : pyGetI ram1 (S - 1) = some pc1 := j4
  rw [k2] at j4'
  cases j4'
  subst he2
  refine ⟨k1, k2, rfl, rfl, ?_⟩
  show pyGetI reg2 SP = some S
  have := pyGetI_pySetI_same j3
  rw [show S - 1 + 1 = S by omega] at this
  exact this

/-- C4 (amended): PUSH(r) followed immediately by POP(r) restores register r
and the stack pointer, for every starting state whose stack pointer S is in
stack range and is not 0xF5 — when S = 0xF5 the push lands the stack pointer
on the reset value 0xF4 and the POP takes the empty-stack path, leaving the
stack pointer at 0xF4 instead of restoring it. -/
theorem C4_push_pop_roundtrip_amended (s : CPUState) (r b b2 S : Int)
    (r1 r2 : HRet)
    (hr0 : 0 ≤ r)
    (hsp : pyGetI s.reg SP = some S)
    (hS1 : 1 ≤ S)
    (hS245 : S ≠ 0xf5)
    (hpush : push s r b = some r1)
    (hpop : pop r1.st r b2 = some r2) :
    pyGetI r2.st.reg r = pyGetI s.reg r ∧ pyGetI r2.st.reg SP = some S := by
  obtain ⟨sp0, reg1, value, ram1, h1, h2, h3, h4, he⟩ := push_inv hpush
  rw [hsp] at h1
  cases h1
  subst he
  obtain ⟨sp0', hsp', hcase⟩ := pop_inv hpop
  have hsp'' : pyGetI reg1 SP = some sp0' := hsp'
  rw [pyGetI_pySetI_same h2] at hsp''
  cases hsp''
  rcases hcase with ⟨habs, _⟩ | ⟨_, value2, reg1', sp1, reg2, j1, j2, j3, j4, he2⟩
  · exfalso
    omega
  · have j1' : pyGetI ram1 (S - 1) = some value2 := j1
    rw [pyGetI_pySetI_same h4] at j1'
    cases j1'
    have j2' : pySetI reg1 r value = some reg1' := j2
    subst he2
    by_cases hr7 : r = SP
    · subst hr7
      have hval : value = S - 1 := by
        have h3' : pyGetI reg1 SP = some value := h3
        rw [pyGetI_pySetI_same h2] at h3'
        exact (Option.some.inj h3').symm
      subst hval
      have j3' : pyGetI reg1' SP = some (S - 1) := pyGetI_pySetI_same j2'
      rw [j3'] at j3
      cases j3
      have hfin : pyGetI reg2 SP = some S := by
        have := pyGetI_pySetI_same j4
        rw [show S - 1 + 1 = S by omega] at this
        exact this
      constructor
      · show pyGetI reg2 SP = pyGetI s.reg SP
        rw [hfin, hsp]
      · exact hfin
    · have h3' : pyGetI s.reg r = some value := by
        rw [← pyGetI_pySetI_other h2 (by decide) r hr0 hr7]
        exact h3
      have j3' : pyGetI reg1' SP = some (S - 1) := by
        rw [pyGetI_pySetI_other j2' hr0 SP (by decide) (Ne.symm hr7)]
        exact pyGetI_pySetI_same h2
      rw [j3'] at j3
      cases j3
      constructor
      · show pyGetI reg2 r = pyGetI s.reg r
        rw [pyGetI_pySetI_other j4 (by decide) r hr0 hr7,
          pyGetI_pySetI_same j2']
        exact h3'.symm
      · show pyGetI reg2 SP = some S
        have := pyGetI_pySetI_same j4
        rw [show S - 1 + 1 = S by omega] at this
        exact this

/-- C6 (amended): the three fetch reads of a run cycle are in bounds for
every reachable state whose program counter is nonnegative and at most 253;
reachable Running states with a larger program counter exist, and there the
fetch fails. -/
theorem C6_fetch_in_bounds_amended (prog : List Int) (n : Nat) (s : CPUState)
    (hv : validProg prog)
    (hrun : runFor n (loadProgram prog) = StepResult.ok s)
    (hhalt : s.halted = false)
    (hpc0 : 0 ≤ s.pc) (hpc : s.pc ≤ 253) :
    fetchOk s = true := by
  have hle := hv.1
  have hlen : s.ram.length = 256 := by
    rw [runFor_ram_length n (loadProgram prog) s hrun]
    show (prog ++ List.replicate (256 - prog.length) 0).length = 256
    rw [List.length_append, List.length_replicate]
    omega
  have f1 := pyGetI_isSome hpc0
    (show s.pc < (s.ram.length : Int) by rw [hlen]; omega)
  have f2 := pyGetI_isSome (show 0 ≤ s.pc + 1 by omega)
    (show s.pc + 1 < (s.ram.length : Int) by rw [hlen]; omega)
  have f3 := pyGetI_isSome (show 0 ≤ s.pc + 2 by omega)
    (show s.pc + 2 < (s.ram.length : Int) by rw [hlen]; omega)
  unfold fetchOk ram_read
  rw [f1, f2, f3]
  rfl

/-- Program used to reach an out-of-bounds fetch: load 254 into register 0,
then jump to it. -/
def c6prog : List Int := [LDI, 0, 254, JMP, 0]

/-- State reached after running `c6prog` for two cycles. -/
def c6state : CPUState :=
  { ram := c6prog ++ List.replicate 251 0
    reg := [254, 0, 0, 0, 0, 0, 0, 0xf4]
    halted := false
    pc := 254
    flags := [0, 0, 0] }

/-- C6 counterexample: the Running state with program counter 254 reached
after two cycles of `c6prog` makes the fetch of pc + 2 = 256 fail on the
256-cell memory, so the fetch does not succeed in every reachable Running
state. -/
theorem C6_counterexample :
    ¬ (∀ (prog : List Int) (n : Nat) (s : CPUState),
        validProg prog → runFor n (loadProgram prog) = StepResult.ok s →
        s.halted = false → fetchOk s = true) := by
  intro h
  exact absurd (h c6prog 2 c6state (by decide) (by decide) rfl) (by decide)

/-- Machine state with the stack pointer at 0xF5 and 5 in register 0. -/
def s245 : CPUState :=
  { ram := List.replicate 256 0
    reg := [5, 0, 0, 0, 0, 0, 0, 0xf5]
    halted := false
    pc := 0
    flags := [0, 0, 0] }

/-- State after pushing register 0 of `s245`. -/
def s245' : CPUState :=
  { ram := (List.replicate 256 0).set 244 5
    reg := [5, 0, 0, 0, 0, 0, 0, 0xf4]
    halted := false
    pc := 0
    flags := [0, 0, 0] }

/-- C4 counterexample: starting with the stack pointer at 0xF5, PUSH moves it
to 0xF4 and the immediately following POP takes the empty-stack path, leaving
the stack pointer at 0xF4 rather than restoring 0xF5. -/
theorem C4_counterexample :
    ¬ (∀ (s : CPUState) (r b b2 : Int) (r1 r2 : HRet),
        push s r b = some r1 → pop r1.st r b2 = some r2 →
        pyGetI r2.st.reg r = pyGetI s.reg r ∧
          pyGetI r2.st.reg SP = pyGetI s.reg SP) := by
  intro h
  have h1 : push s245 0 0 = some ⟨s245', none⟩ := by decide
  have h2 : pop s245' 0 0 = some ⟨s245', some "Empty Stack"⟩ := by decide
  have h3 := h s245 0 0 0 ⟨s245', none⟩ ⟨s245', some "Empty Stack"⟩ h1 h2
  exact absurd h3.2 (by decide)

/-! Concrete instances used as witnesses. -/

/-- One-instruction program: HLT at address 0. -/
def c1s : CPUState := loadProgram [HLT]

/-- Handler result of HLT on `c1s`. -/
def c1r : HRet := ⟨{ c1s with halted := true }, none⟩

/-- C1 witness at the concrete state `c1s`. -/
theorem C1_cycle_size_and_pc_advance_witness :
    ram_read c1s c1s.pc = some HLT ∧
      Int.land (HLT >>> (4 : Int)) 1 = 0 ∧
      step c1s = StepResult.ok { c1r.st with pc := c1r.st.pc +
        (Int.land (HLT >>> (6 : Int)) 0b11 + 1) } :=
  ⟨by decide, by decide,
    (C1_cycle_size_and_pc_advance c1s HLT 0 0 hlt c1r (by decide) (by decide)
      (by decide) rfl (by decide)).1 (by decide)⟩

/-- Registers 3 and 5 about to be compared. -/
def c2s : CPUState := { initCPU with reg := [3, 5, 0, 0, 0, 0, 0, 0xf4] }

/-- State after comparing registers 0 and 1 of `c2s`. -/
def c2s1 : CPUState := { c2s with flags := [1, 0, 0] }

/-- C2 witness at the concrete state `c2s`. -/
theorem C2_cmp_flags_exactly_one_witness :
    ((3 : Int) < 5 ∧ c2s1.flags = [1, 0, 0]) ∨
    ((3 : Int) > 5 ∧ c2s1.flags = [0, 1, 0]) ∨
    ((3 : Int) = 5 ∧ c2s1.flags = [0, 0, 1]) :=
  C2_cmp_flags_exactly_one c2s c2s1 0 1 3 5 (by decide) (by decide) (by decide)

/-- State about to CALL through register 2 (which holds address 9). -/
def c3s : CPUState :=
  { ram := (List.replicate 256 0).set 1 2
    reg := [0, 0, 9, 0, 0, 0, 0, 0xf4]
    halted := false
    pc := 0
    flags := [0, 0, 0] }

/-- Handler result of CALL on `c3s`. -/
def c3r1 : HRet :=
  ⟨{ ram := ((List.replicate 256 0).set 1 2).set 243 2
     reg := [0, 0, 9, 0, 0, 0, 0, 243]
     halted := false
     pc := 9
     flags := [0, 0, 0] }, none⟩

/-- Handler result of RET after `c3r1`. -/
def c3r2 : HRet :=
  ⟨{ ram := ((List.replicate 256 0).set 1 2).set 243 2
     reg := [0, 0, 9, 0, 0, 0, 0, 244]
     halted := false
     pc := 2
     flags := [0, 0, 0] }, none⟩

/-- C3 (amended) witness at the concrete state `c3s`. -/
theorem C3_call_ret_return_address_amended_witness :
    pyGetI c3r1.st.reg SP = some 243 ∧
    pyGetI c3r1.st.ram 243 = some 2 ∧
    c3r1.st.pc = 9 ∧
    c3r2.st.pc = 2 ∧
    pyGetI c3r2.st.reg SP = some 244 :=
  C3_call_ret_return_address_amended c3s 0 0 0 0 244 2 9 c3r1 c3r2 (by decide)
    (by decide) (by decide) (by decide) (by decide) (by decide) (by decide)
    (by decide) (by decide) (by decide)

/-- State whose stack pointer 2 is the call address plus 2, so CALL's push
lands on the CALL's own operand byte at address 1; that operand names
register 3, which holds 9. -/
def c3cs : CPUState :=
  { ram := (List.replicate 256 0).set 1 3
    reg := [0, 0, 0, 9, 0, 0, 0, 2]
    halted := false
    pc := 0
    flags := [0, 0, 0] }

/-- Handler result of CALL on `c3cs`: the push wrote the return address 2
over the operand byte, so the re-read register number is 2 and the jump goes
to register 2's value 0, not to register 3's value 9. -/
def c3cr1 : HRet :=
  ⟨{ ram := ((List.replicate 256 0).set 1 3).set 1 2
     reg := [0, 0, 0, 9, 0, 0, 0, 1]
     halted := false
     pc := 0
     flags := [0, 0, 0] }, none⟩

/-- Handler result of RET after `c3cr1`. -/
def c3cr2 : HRet :=
  ⟨{ ram := ((List.replicate 256 0).set 1 3).set 1 2
     reg := [0, 0, 0, 9, 0, 0, 0, 2]
     halted := false
     pc := 2
     flags := [0, 0, 0] }, none⟩

/-- C3 counterexample: at a machine state whose stack pointer equals the
call address plus 2, CALL's push overwrites the operand byte before the
handler re-reads it, so the program counter is not set to register[r] —
here it lands on 0 although the named register 3 holds 9. -/
theorem C3_counterexample :
    ¬ (∀ (s : CPUState) (a b a2 b2 S rn target : Int) (r1 r2 : HRet),
        pyGetI s.reg SP = some S →
        0 ≤ rn → rn < 8 →
        pyGetI s.ram (s.pc + 1) = some rn →
        pyGetI s.reg rn = some target →
        call s a b = some r1 →
        ret r1.st a2 b2 = some r2 →
        pyGetI r1.st.reg SP = some (S - 1) ∧
        pyGetI r1.st.ram (S - 1) = some (s.pc + 2) ∧
        r1.st.pc = target ∧
        r2.st.pc = s.pc + 2 ∧
        pyGetI r2.st.reg SP = some S) := by
  intro h
  have h3 := h c3cs 0 0 0 0 2 3 9 c3cr1 c3cr2 (by decide) (by decide)
    (by decide) (by decide) (by decide) (by decide) (by decide)
  exact absurd h3.2.2.1 (by decide)

/-- State with 5 in register 0 and the stack pointer at its reset value. -/
def c4s : CPUState := { initCPU with reg := [5, 0, 0, 0, 0, 0, 0, 0xf4] }

/-- Handler result of PUSH register 0 on `c4s`. -/
def c4r1 : HRet :=
  ⟨{ c4s with
      reg := [5, 0, 0, 0, 0, 0, 0, 243]
      ram := (List.replicate 256 0).set 243 5 }, none⟩

/-- Handler result of POP register 0 after `c4r1`. -/
def c4r2 : HRet :=
  ⟨{ c4s with
      reg := [5, 0, 0, 0, 0, 0, 0, 244]
      ram := (List.replicate 256 0).set 243 5 }, none⟩

/-- C4 (amended) witness at the concrete state `c4s`. -/
theorem C4_push_pop_roundtrip_amended_witness :
    pyGetI c4r2.st.reg 0 = pyGetI c4s.reg 0 ∧
      pyGetI c4r2.st.reg SP = some 244 :=
  C4_push_pop_roundtrip_amended c4s 0 0 0 244 c4r1 c4r2 (by decide)
    (by decide) (by decide) (by decide) (by decide) (by decide)

/-- One-instruction program: POP register 0 with an empty stack. -/
def c5s : CPUState := loadProgram [POP, 0]

/-- C5 witness at the concrete state `c5s`. -/
theorem C5_pop_empty_stack_witness :
    pop c5s 0 0 = some ⟨c5s, some "Empty Stack"⟩ ∧
      step c5s = StepResult.ok { c5s with pc := c5s.pc + 2 } :=
  C5_pop_empty_stack c5s 0 0 (by decide) (by decide) (by decide) (by decide)

/-- C6 (amended) witness: the freshly loaded HLT program fetches safely. -/
theorem C6_fetch_in_bounds_amended_witness :
    fetchOk (loadProgram [HLT]) = true :=
  C6_fetch_in_bounds_amended [HLT] 0 (loadProgram [HLT]) (by decide) rfl rfl
    (by decide) (by decide)

/-- One-byte program holding the unknown opcode 0b11111111. -/
def c7s : CPUState := loadProgram [0b11111111]

/-- C7 witness: the spec's scenario of opcode 0b11111111 at address 0. -/
theorem C7_unknown_opcode_witness :
    step c7s = StepResult.exited 1 0b11111111 c7s.pc c7s :=
  C7_unknown_opcode c7s 0b11111111 0 0 (by decide) (by decide) (by decide) rfl

/-- Registers 3 and 5 for the arithmetic witness. -/
def c8s : CPUState := { initCPU with reg := [3, 5, 0, 0, 0, 0, 0, 0xf4] }

/-- ADD register 1 into register 0 on `c8s`. -/
def c8sab : CPUState := { c8s with reg := [8, 5, 0, 0, 0, 0, 0, 0xf4] }

/-- ADD register 0 into register 1 on `c8s`. -/
def c8sba : CPUState := { c8s with reg := [3, 8, 0, 0, 0, 0, 0, 0xf4] }

/-- MUL register 1 into register 0 on `c8s`. -/
def c8mab : CPUState := { c8s with reg := [15, 5, 0, 0, 0, 0, 0, 0xf4] }

/-- MUL register 0 into register 1 on `c8s`. -/
def c8mba : CPUState := { c8s with reg := [3, 15, 0, 0, 0, 0, 0, 0xf4] }

/-- C8 witness at the concrete state `c8s`. -/
theorem C8_alu_add_mul_exact_commutative_witness :
    pyGetI c8sab.reg 0 = some 8 ∧
    pyGetI c8mab.reg 0 = some 15 ∧
    pyGetI c8sab.reg 0 = pyGetI c8sba.reg 1 ∧
    pyGetI c8mab.reg 0 = pyGetI c8mba.reg 1 :=
  C8_alu_add_mul_exact_commutative c8s c8sab c8sba c8mab c8mba 0 1 3 5
    (by decide) (by decide) (by decide) (by decide) (by decide) (by decide)

/-- C9 witness: the HLT handler leaves the flags alone. -/
theorem C9_flags_only_cmp_witness :
    (⟨{ initCPU with halted := true }, none⟩ : HRet).st.flags =
      initCPU.flags :=
  C9_flags_only_cmp initCPU HLT 0 0 hlt
    ⟨{ initCPU with halted := true }, none⟩ rfl (by decide) (by decide)

/-- State with 5 in register 0, about to push it. -/
def c10s : CPUState := { initCPU with reg := [5, 0, 0, 0, 0, 0, 0, 0xf4] }

/-- Handler result of PUSH register 0 on `c10s`. -/
def c10r : HRet :=
  ⟨{ c10s with
      reg := [5, 0, 0, 0, 0, 0, 0, 243]
      ram := (List.replicate 256 0).set 243 5 }, none⟩

/-- C10 witness at the concrete state `c10s`. -/
theorem C10_push_frame_witness :
    pyGetI c10r.st.reg SP = some 243 ∧
    (∀ i : Int, 0 ≤ i → i ≠ SP → pyGetI c10r.st.reg i = pyGetI c10s.reg i) ∧
    pyGetI c10r.st.ram 243 = pyGetI c10r.st.reg 0 ∧
    ((0 : Int) ≠ SP → pyGetI c10r.st.ram 243 = some 5) ∧
    (∀ j : Int, 0 ≤ j → j ≠ 243 → pyGetI c10r.st.ram j = pyGetI c10s.ram j) ∧
    c10r.st.flags = c10s.flags ∧ c10r.st.halted = c10s.halted ∧
    c10r.st.pc = c10s.pc :=
  C10_push_frame c10s 0 0 244 5 c10r (by decide) (by decide) (by decide)
    (by decide) (by decide)

end CPU
